import Mathlib

/-!
Verification development for the birthday/anniversary Slack notification bot
(sources: src/main.py and src/check.py; the two scripts are near-duplicates,
and every definition below notes which file and lines it embeds).

The payload is modelled as a JSON-like tree, the circuit breaker as an
explicit state record threaded through the functions that the Python code
mutates in place, wall-clock time as a rational number of seconds (the code
compares `(datetime.now() - last).total_seconds()` against the cooldown),
and the HTTP transport as a function from attempt index to the status code
the server answers with on that attempt.
-/

/-- JSON-like values, as produced by `json.load` and built inline by
`prepare_message` (src/main.py lines 212-249, src/check.py lines 234-271).
Objects keep their fields in insertion order, like Python dicts. -/
inductive Json where
  | null : Json
  | str : String → Json
  | arr : List Json → Json
  | obj : List (String × Json) → Json
deriving Repr

/-- Python truthiness for the values that flow through `if not message:` and
`if title:` in the scripts: `None`, `""`, `[]` and `\x7b\x7d` are falsy. -/
def Json.falsy : Json → Bool
  | .null => true
  | .str s => s.isEmpty
  | .arr xs => xs.isEmpty
  | .obj fs => fs.isEmpty

/-- Field lookup on an object (`d[k]` / `d.get(k)` when `d` is a dict);
`none` when the key is absent or the value is not an object. -/
def Json.lookup : Json → String → Option Json
  | .obj fs, k => fs.lookup k
  | _, _ => none

/-- Embeds `message.get('blocks', [])` followed by iteration, and
`block.get('elements', [])` (src/main.py lines 261-262): the default is the
empty list.  The payloads reached by the claims always store a list under
these keys, so the model returns `[]` for a non-list value as well. -/
def Json.getArrD (j : Json) (k : String) : List Json :=
  match j.lookup k with
  | some (.arr xs) => xs
  | _ => []

/-- Embeds `element.get('text', '')` (src/main.py line 263).  The payloads
reached by the claims always store a string under `text` when the key is
present, so the model returns `""` for a non-string value as well. -/
def Json.getTextD (j : Json) : String :=
  match j.lookup "text" with
  | some (.str s) => s
  | _ => ""

/-- The needle is a prefix of the haystack (character lists). -/
def listIsPrefix : List Char → List Char → Bool
  | [], _ => true
  | _ :: _, [] => false
  | c :: cs, d :: ds => c == d && listIsPrefix cs ds

/-- The needle occurs as a contiguous substring of the haystack: Python's
`needle in haystack` on strings, over their character lists. -/
def listHasSub (sub : List Char) : List Char → Bool
  | [] => listIsPrefix sub []
  | d :: ds => listIsPrefix sub (d :: ds) || listHasSub sub ds

/-- Embeds `contains_url` (src/main.py lines 258-259): the text contains one
of the substrings `http://`, `https://`, `www.`, with Python `kw in text`
modelled by `listHasSub` over the character lists. -/
def contains_url (text : String) : Bool :=
  ["http://", "https://", "www."].any fun keyword => listHasSub keyword.toList text.toList

/-- Embeds `validate_message_content` (src/main.py lines 252-271, identical
logic at src/check.py lines 274-295): reject an absent or falsy message,
then for each block of `message['blocks']` and each element directly inside
`block['elements']`, reject when `element['text']` is longer than 500
characters or contains a prohibited URL substring.  NOTE: the code inspects
only this one level of `elements`; it does not recurse into nested
`rich_text_list` / `rich_text_section` elements. -/
def validate_message_content (message : Option Json) : Bool :=
  match message with
  | none => false
  | some m =>
    if m.falsy then false
    else
      (m.getArrD "blocks").all fun block =>
        (block.getArrD "elements").all fun element =>
          let text := element.getTextD
          if text.length > 500 then false
          else if contains_url text then false
          else true

mutual

/-- All text-bearing leaves of a payload, at every nesting depth: the string
found under a `text` key of any object anywhere in the tree.  This is the
notion of "text-bearing leaf element" the specification quantifies over; it
is used only to state properties, never by the embedded code. -/
def Json.deepTexts : Json → List String
  | Json.null => []
  | Json.str _ => []
  | Json.arr xs => deepTextsList xs
  | Json.obj fs =>
    (match fs.lookup "text" with
     | some (Json.str s) => [s]
     | _ => []) ++ deepTextsFields fs

/-- Helper for `Json.deepTexts` over arrays. -/
def deepTextsList : List Json → List String
  | [] => []
  | x :: xs => Json.deepTexts x ++ deepTextsList xs

/-- Helper for `Json.deepTexts` over object fields. -/
def deepTextsFields : List (String × Json) → List String
  | [] => []
  | (_, v) :: fs => Json.deepTexts v ++ deepTextsFields fs

end

/-- Embeds the `CircuitBreaker` state (src/main.py lines 100-105, src/check.py
lines 118-123): failure count, trip threshold, cooldown in seconds, and the
timestamp of the last recorded failure (absent until the first failure). -/
structure Breaker where
  failure_count : Nat
  threshold : Nat
  cooldown : ℚ
  last_failure_time : Option ℚ
deriving Repr, DecidableEq

/-- The process-wide breaker as constructed at src/main.py line 120:
`CircuitBreaker()` with the default threshold 5 and cooldown 300. -/
def circuit_breaker : Breaker :=
  { failure_count := 0, threshold := 5, cooldown := 300, last_failure_time := none }

/-- Embeds `CircuitBreaker.is_open` (src/main.py lines 107-114).  The Python
method reads the clock and mutates `self`; the model takes `now` explicitly
and returns the boolean result together with the updated state.  When the
count has reached the threshold but the last failure is unset (falsy `None`)
or at least `cooldown` seconds old, the count is reset to 0 on this call. -/
def is_open (b : Breaker) (now : ℚ) : Bool × Breaker :=
  if b.threshold ≤ b.failure_count then
    match b.last_failure_time with
    | some t =>
      if now - t < b.cooldown then (true, b)
      else (false, { b with failure_count := 0 })
    | none => (false, { b with failure_count := 0 })
  else (false, b)

/-- Embeds `CircuitBreaker.record_failure` (src/main.py lines 116-118):
increment the count and stamp the failure time. -/
def record_failure (b : Breaker) (now : ℚ) : Breaker :=
  { b with failure_count := b.failure_count + 1, last_failure_time := some now }

/-- A sequence of `record_failure` calls at the given times, in order. -/
def applyFailures (b : Breaker) (times : List ℚ) : Breaker :=
  times.foldl record_failure b

/-- The retry configuration of the shared session (src/main.py lines 92-96,
src/check.py lines 110-114): `Retry(total=3, ...)`.  In urllib3, `total` is
the number of RETRIES allowed after the initial request. -/
def totalRetries : Nat := 3

/-- The `backoff_factor=2` argument of the session's `Retry` configuration
(src/main.py line 94): exponential backoff with factor 2 between retries. -/
def backoff_factor : Nat := 2

/-- The `status_forcelist=[500, 502, 503, 504]` argument of the session's
`Retry` configuration (src/main.py line 95): the only response status codes
that trigger a retry. -/
def statusForcelist : List Nat := [500, 502, 503, 504]

/-- Result of `session.post` as the surrounding `send_message` observes it:
either a final response with a status code, or the `RetryError` that
`requests` raises (wrapping urllib3's `MaxRetryError`) when the retries were
exhausted by forcelist statuses.  `RetryError` is a `RequestException` and
not an `HTTPError`, so `send_message` catches it in its network-error
branch. -/
inductive PostResult where
  | ok : Nat → PostResult
  | retryError : PostResult
deriving Repr, DecidableEq

/-- Attempt loop of urllib3's `Retry` as configured at src/main.py lines
92-97: issue a request (`server i` is the status the server answers on the
i-th request); a status in the forcelist consumes one retry and loops, and
when it arrives with no retries remaining `MaxRetryError` surfaces; any
other status is returned as the final response.  Returns the result
together with the total number of HTTP requests issued. -/
def retryLoop (server : Nat → Nat) : Nat → Nat → PostResult × Nat
  | i, 0 =>
    if server i ∈ statusForcelist then (.retryError, i + 1)
    else (.ok (server i), i + 1)
  | i, r + 1 =>
    if server i ∈ statusForcelist then retryLoop server (i + 1) r
    else (.ok (server i), i + 1)

/-- Embeds one call to `session.post(url=SLACK_WEBHOOK_URL, json=message)`
(src/main.py line 281) through the session's mounted retry adapter:
1 initial request plus up to `totalRetries` retries. -/
def sessionPost (server : Nat → Nat) : PostResult × Nat :=
  retryLoop server 0 totalRetries

/-- The maximum number of HTTP requests one logical `session.post` can
issue: the initial attempt plus `totalRetries` retries. -/
def maxAttempts : Nat := totalRetries + 1

/-- Reasons of the `Skipped` delivery outcome, one per early-return branch
of `send_message` (src/check.py lines 298-305 and 327-329). -/
inductive SkipReason where
  | circuitOpen : SkipReason
  | nothingToReport : SkipReason
  | validationFailed : SkipReason
deriving Repr, DecidableEq

/-- Reasons of the `Failed` delivery outcome: the `HTTPError` branch of
`send_message` (src/main.py lines 285-292) and the `RequestException`
branch (src/main.py lines 293-295). -/
inductive FailReason where
  | httpError : FailReason
  | networkError : FailReason
deriving Repr, DecidableEq

/-- Delivery outcome of one `send_message` call, labelling its disjoint
exit branches. -/
inductive Outcome where
  | sent : Outcome
  | skipped : SkipReason → Outcome
  | failed : FailReason → Outcome
deriving Repr, DecidableEq

/-- Embeds `send_message` (src/check.py lines 298-329; src/main.py lines
274-297 is the same machine except that its absent-message case shares the
final else branch and its log line).  The Python function reads the clock
and mutates the process-wide breaker; the model takes `now` and the breaker
state explicitly and returns the outcome, the updated breaker, and the
number of HTTP requests issued.  `record_failure` stamps the call's `now`,
standing for the clock reading taken inside the Python call.
Branches in order: breaker open → skip; absent/falsy message → skip;
validation failure → skip; otherwise one `session.post`, where a final
status below 400 passes `raise_for_status` (success: the breaker's
failure count is set to 0 directly), a final status of 400 or above raises
`HTTPError` (one `record_failure`), and exhausted retries raise
`RetryError`, a `RequestException` (one `record_failure`). -/
def send_message (b : Breaker) (now : ℚ) (message : Option Json) (server : Nat → Nat) :
    Outcome × Breaker × Nat :=
  let check := is_open b now
  if check.1 then (.skipped .circuitOpen, check.2, 0)
  else
    match message with
    | none => (.skipped .nothingToReport, check.2, 0)
    | some m =>
      if m.falsy then (.skipped .nothingToReport, check.2, 0)
      else if validate_message_content (some m) then
        match sessionPost server with
        | (.ok status, n) =>
          if 400 ≤ status then (.failed .httpError, record_failure check.2 now, n)
          else (.sent, { check.2 with failure_count := 0 }, n)
        | (.retryError, n) => (.failed .networkError, record_failure check.2 now, n)
      else (.skipped .validationFailed, check.2, 0)

/-- Python exceptions that the message-building code can raise; none of
them is caught anywhere in `prepare_message` or its helpers, so in the
model an `Except.error` stands for the process crashing. -/
inductive PyErr where
  | typeError : PyErr
  | keyError : String → PyErr
  | indexError : PyErr
  | attributeError : PyErr
deriving Repr, DecidableEq

/-- Embeds `d[k]` on a value: `KeyError` when a dict lacks the key,
`TypeError` when the value is `None` or not subscriptable by a string. -/
def Json.getItem : Json → String → Except PyErr Json
  | .obj fs, k =>
    match fs.lookup k with
    | some v => .ok v
    | none => .error (.keyError k)
  | _, _ => .error .typeError

/-- Embeds `xs[i]` on a value: `IndexError` past the end, `TypeError` when
the value is not a list. -/
def Json.getIdx : Json → Nat → Except PyErr Json
  | .arr xs, i =>
    match xs[i]? with
    | some v => .ok v
    | none => .error .indexError
  | _, _ => .error .typeError

/-- Replace the value under an existing key, keeping field order. -/
def setField (fs : List (String × Json)) (k : String) (v : Json) : List (String × Json) :=
  if fs.any (fun p => p.1 == k) then
    fs.map (fun p => if p.1 == k then (k, v) else p)
  else fs ++ [(k, v)]

/-- Embeds `d[k] = v`: on a dict, replace or append the binding;
`TypeError` on anything else. -/
def Json.setItem : Json → String → Json → Except PyErr Json
  | .obj fs, k, v => .ok (.obj (setField fs k v))
  | _, _, _ => .error .typeError

/-- Embeds `xs[i] = v`: `IndexError` past the end, `TypeError` when the
value is not a list. -/
def Json.setIdx : Json → Nat → Json → Except PyErr Json
  | .arr xs, i, v =>
    if i < xs.length then .ok (.arr (xs.set i v)) else .error .indexError
  | _, _, _ => .error .typeError

/-- Embeds the in-place mutation of `parse_title` (src/main.py line 194):
`title['blocks'][1]['elements'][0]['text'] =
 title['blocks'][1]['elements'][0]['text'].replace('\x7b\x7bDATE\x7d\x7d', date)`,
as a functional update along the same path. -/
def substTitleDate (t : Json) (dateStr : String) : Except PyErr Json := do
  let blocks ← t.getItem "blocks"
  let b1 ← blocks.getIdx 1
  let els ← b1.getItem "elements"
  let e0 ← els.getIdx 0
  let txt ← e0.getItem "text"
  match txt with
  | .str s =>
    let e0' ← e0.setItem "text" (.str (s.replace "\x7b\x7bDATE\x7d\x7d" dateStr))
    let els' ← els.setIdx 0 e0'
    let b1' ← b1.setItem "elements" els'
    t.setItem "blocks" (← blocks.setIdx 1 b1')
  | _ => .error .attributeError

/-- Embeds `parse_title` (src/main.py lines 191-195).  The loaded template
is passed in (`none` models `load_json_file` returning `None` for a missing
or malformed `bin/title.json`), as is the rendered current date.  A falsy
loaded value skips the mutation, exactly like `if title:`. -/
def parse_title (title : Option Json) (dateStr : String) : Except PyErr (Option Json) :=
  match title with
  | none => .ok none
  | some t =>
    if t.falsy then .ok (some t)
    else do .ok (some (← substTitleDate t dateStr))

/-- Embeds `parse_birthday_header` / `parse_anniversary_header`
(src/main.py lines 198-209): if the loaded header template is truthy, set
`header['accessory']['image_url']` to the chosen GIF URL.  The GIF choice
`random.choice(GIFS) if GIFS else ""` is nondeterministic, so the chosen
string is a parameter of the model. -/
def parseHeader (header : Option Json) (gif : String) : Except PyErr (Option Json) :=
  match header with
  | none => .ok none
  | some h =>
    if h.falsy then .ok (some h)
    else do
      let acc ← h.getItem "accessory"
      let acc' ← acc.setItem "image_url" (.str gif)
      .ok (some (← h.setItem "accessory" acc'))

/-- A row of the roster after the pandas pipeline of src/main.py lines
160-188: the `Employee Name` cell (`none` for a missing/NaN name, which
`.dropna()` removes) and the month/day of the parsed `Birthday` and
`Hire Date` cells (`none` for a missing column cell or a value that
`pd.to_datetime(..., errors='coerce')` turned into `NaT`). -/
structure Row where
  name : Option String
  birthday : Option (Nat × Nat)
  hireDate : Option (Nat × Nat)

/-- Embeds `get_birthdays` (src/main.py lines 176-181): the names of rows
whose birthday month/day (rendered by `strftime('%m-%d')`) equals today's,
with NaT dates never matching and NaN names dropped. -/
def get_birthdays (roster : List Row) (today : Nat × Nat) : List String :=
  roster.filterMap fun r =>
    match r.birthday with
    | some d => if d = today then r.name else none
    | none => none

/-- Embeds `get_anniversaries` (src/main.py lines 184-188), the same match
on the `Hire Date` column. -/
def get_anniversaries (roster : List Row) (today : Nat × Nat) : List String :=
  roster.filterMap fun r =>
    match r.hireDate with
    | some d => if d = today then r.name else none
    | none => none

/-- The `\x7b"type": "divider"\x7d` block literal of src/main.py line 224. -/
def dividerBlock : Json := .obj [("type", .str "divider")]

/-- The spacer block literal of src/main.py line 238. -/
def spacerBlock : Json :=
  .obj [("type", .str "section"),
        ("text", .obj [("type", .str "plain_text"), ("text", .str "\n")])]

/-- One bulleted list entry of src/check.py lines 250-254: a
`rich_text_list` holding a `rich_text_section` holding a `text` leaf with
the employee's name.  (src/main.py line 231 additionally title-cases the
name with `.title()`; the claims do not depend on that difference.) -/
def listEntry (name : String) : Json :=
  .obj [("type", .str "rich_text_list"), ("style", .str "bullet"),
        ("elements", .arr [
          .obj [("type", .str "rich_text_section"),
                ("elements", .arr [.obj [("type", .str "text"), ("text", .str name)]])]])]

/-- The `rich_text` block after the append loop of src/check.py lines
248-254 has run: `\x7b"type": "rich_text", "elements": []\x7d` with one
`listEntry` appended per name, in order. -/
def richTextBlock (names : List String) : Json :=
  .obj [("type", .str "rich_text"), ("elements", .arr (names.map listEntry))]

/-- Embeds `message['blocks'].append(block)` (src/main.py lines 224-226):
`TypeError` when the message is `None` (`NoneType` is not subscriptable),
`KeyError` when it has no `blocks` key, `AttributeError` when `blocks` is
not a list. -/
def appendBlock (message : Option Json) (block : Json) : Except PyErr (Option Json) :=
  match message with
  | none => .error .typeError
  | some m => do
    match ← m.getItem "blocks" with
    | .arr bs => .ok (some (← m.setItem "blocks" (.arr (bs ++ [block]))))
    | _ => .error .attributeError

/-- The value `prepare_message` appends for a header section: the header
returned by the parse helper, which is `None` (appended as JSON null) when
the template file was missing. -/
def headerValue : Option Json → Json
  | none => .null
  | some h => h

/-- Embeds `prepare_message` (src/check.py lines 234-271, structurally
identical to src/main.py lines 212-249).  The external collaborators are
parameters: the roster rows and today's month/day stand for the fetched
spreadsheet, the three `Option Json` values are what `load_json_file`
returned for the title and the two header templates, the two strings are
the chosen GIF URLs, and `dateStr` is today's rendered date.  The result is
the built message (`none` when there is nothing to announce) or the Python
exception the build raises. -/
def prepare_message (roster : List Row) (today : Nat × Nat)
    (title bHeader aHeader : Option Json) (bGif aGif : String) (dateStr : String) :
    Except PyErr (Option Json) := do
  let birthdays := get_birthdays roster today
  let anniversaries := get_anniversaries roster today
  if birthdays.isEmpty && anniversaries.isEmpty then
    return none
  else
    let message ← parse_title title dateStr
    let message ←
      if birthdays.isEmpty then pure message
      else do
        let message ← appendBlock message dividerBlock
        let message ← appendBlock message (headerValue (← parseHeader bHeader bGif))
        appendBlock message (richTextBlock birthdays)
    let message ←
      if anniversaries.isEmpty then pure message
      else do
        let message ← if birthdays.isEmpty then pure message else appendBlock message spacerBlock
        let message ← appendBlock message dividerBlock
        let message ← appendBlock message (headerValue (← parseHeader aHeader aGif))
        appendBlock message (richTextBlock anniversaries)
    return message

/-- A payload of the shape `prepare_message` renders when the roster holds
one birthday entry whose `Employee Name` cell is the string
`http://evil.example`: the URL sits in a text leaf nested inside the
`rich_text_list` / `rich_text_section` group. -/
def badPayload : Json :=
  .obj [("blocks", .arr [dividerBlock, richTextBlock ["http://evil.example"]])]

/-- A minimal truthy payload that passes `validate_message_content`. -/
def goodPayload : Json := .obj [("blocks", .arr [])]

/-- A roster row for an employee whose birthday is June 15. -/
def rowAmina : Row := { name := some "Amina", birthday := some (6, 15), hireDate := none }

/-- A well-formed birthday header template, as `bin/birthday_header.json`
would provide it. -/
def birthdayHeaderTemplate : Json :=
  .obj [("type", .str "section"),
        ("text", .obj [("type", .str "mrkdwn"), ("text", .str "Happy Birthday")]),
        ("accessory", .obj [("type", .str "image")])]

/-- A well-formed anniversary header template, as
`bin/anniversary_header.json` would provide it. -/
def anniversaryHeaderTemplate : Json :=
  .obj [("type", .str "section"),
        ("text", .obj [("type", .str "mrkdwn"), ("text", .str "Happy Anniversary")]),
        ("accessory", .obj [("type", .str "image")])]

/-- A breaker that has just tripped: at threshold, last failure at time 0. -/
def trippedBreaker : Breaker :=
  { failure_count := 5, threshold := 5, cooldown := 300, last_failure_time := some 0 }

lemma is_open_of_lt {b : Breaker} (now : ℚ) (h : b.failure_count < b.threshold) :
    is_open b now = (false, b) := by
  unfold is_open
  rw [if_neg (not_le.mpr h)]

lemma is_open_of_open {b : Breaker} {t : ℚ} (now : ℚ)
    (h1 : b.threshold ≤ b.failure_count) (h2 : b.last_failure_time = some t)
    (h3 : now - t < b.cooldown) : is_open b now = (true, b) := by
  unfold is_open
  rw [if_pos h1, h2]
  simp [h3]

lemma is_open_heal {b : Breaker} (now : ℚ) (h1 : b.threshold ≤ b.failure_count)
    (h2 : b.last_failure_time = none ∨
      ∃ t, b.last_failure_time = some t ∧ b.cooldown ≤ now - t) :
    is_open b now = (false, { b with failure_count := 0 }) := by
  unfold is_open
  rw [if_pos h1]
  rcases h2 with h2 | ⟨t, h2, h3⟩
  · rw [h2]
  · rw [h2]
    simp [not_lt.mpr h3]

lemma is_open_frame (b : Breaker) (now : ℚ) :
    (is_open b now).2.threshold = b.threshold ∧
    (is_open b now).2.cooldown = b.cooldown ∧
    (is_open b now).2.last_failure_time = b.last_failure_time := by
  by_cases h1 : b.threshold ≤ b.failure_count
  · rcases h : b.last_failure_time with _ | t
    · rw [is_open_heal now h1 (Or.inl h)]
      simp [h]
    · by_cases h2 : now - t < b.cooldown
      · rw [is_open_of_open now h1 h h2]
        simp [h]
      · rw [is_open_heal now h1 (Or.inr ⟨t, h, not_lt.mp h2⟩)]
        simp [h]
  · rw [is_open_of_lt now (not_le.mp h1)]
    simp

lemma applyFailures_fc (ts : List ℚ) (b : Breaker) :
    (applyFailures b ts).failure_count = b.failure_count + ts.length := by
  induction ts generalizing b with
  | nil => simp [applyFailures]
  | cons x xs ih =>
    show (applyFailures (record_failure b x) xs).failure_count = _
    rw [ih]
    simp [record_failure]
    omega

lemma applyFailures_th (ts : List ℚ) (b : Breaker) :
    (applyFailures b ts).threshold = b.threshold := by
  induction ts generalizing b with
  | nil => rfl
  | cons x xs ih =>
    show (applyFailures (record_failure b x) xs).threshold = _
    rw [ih]
    rfl

lemma applyFailures_cd (ts : List ℚ) (b : Breaker) :
    (applyFailures b ts).cooldown = b.cooldown := by
  induction ts generalizing b with
  | nil => rfl
  | cons x xs ih =>
    show (applyFailures (record_failure b x) xs).cooldown = _
    rw [ih]
    rfl

lemma applyFailures_last (ts : List ℚ) (b : Breaker) (t : ℚ) :
    (applyFailures b (ts ++ [t])).last_failure_time = some t := by
  induction ts generalizing b with
  | nil => rfl
  | cons x xs ih =>
    show (applyFailures (record_failure b x) (xs ++ [t])).last_failure_time = _
    rw [ih]

lemma retryLoop_zero (server : Nat → Nat) (i : Nat) :
    retryLoop server i 0 =
      if server i ∈ statusForcelist then (.retryError, i + 1)
      else (.ok (server i), i + 1) := rfl

lemma retryLoop_succ (server : Nat → Nat) (i r : Nat) :
    retryLoop server i (r + 1) =
      if server i ∈ statusForcelist then retryLoop server (i + 1) r
      else (.ok (server i), i + 1) := rfl

lemma forcelist_ge_500 {s : Nat} (h : s ∈ statusForcelist) : 500 ≤ s := by
  simp [statusForcelist] at h
  omega

lemma retryLoop_all_forcelist {server : Nat → Nat}
    (hs : ∀ i, server i ∈ statusForcelist) (r i : Nat) :
    retryLoop server i r = (.retryError, i + r + 1) := by
  induction r generalizing i with
  | zero =>
    rw [retryLoop_zero, if_pos (hs i)]
  | succ r ih =>
    rw [retryLoop_succ, if_pos (hs i), ih (i + 1)]
    congr 1
    omega

lemma sessionPost_all_forcelist {server : Nat → Nat}
    (hs : ∀ i, server i ∈ statusForcelist) :
    sessionPost server = (.retryError, 4) := by
  unfold sessionPost
  rw [retryLoop_all_forcelist hs]
  rfl

lemma sessionPost_first_ok {server : Nat → Nat} (h : server 0 ∉ statusForcelist) :
    sessionPost server = (.ok (server 0), 1) := by
  show retryLoop server 0 (2 + 1) = _
  rw [retryLoop_succ, if_neg h]

lemma retryLoop_count_le (server : Nat → Nat) (r i : Nat) :
    (retryLoop server i r).2 ≤ i + r + 1 := by
  induction r generalizing i with
  | zero =>
    rw [retryLoop_zero]
    split_ifs <;> simp
  | succ r ih =>
    by_cases hmem : server i ∈ statusForcelist
    · rw [retryLoop_succ, if_pos hmem]
      calc (retryLoop server (i + 1) r).2 ≤ i + 1 + r + 1 := ih (i + 1)
        _ ≤ i + (r + 1) + 1 := by omega
    · rw [retryLoop_succ, if_neg hmem]
      omega

lemma send_message_sent_last (b : Breaker) (now : ℚ) (message : Option Json)
    (server : Nat → Nat) (h : (send_message b now message server).1 = Outcome.sent) :
    ((send_message b now message server).2.1).last_failure_time = b.last_failure_time := by
  have hframe := (is_open_frame b now).2.2
  rcases hcheck : is_open b now with ⟨bo, b1⟩
  rw [hcheck] at hframe
  cases bo with
  | true => simp [send_message, hcheck] at h
  | false =>
    rcases message with _ | m
    · simp [send_message, hcheck] at h
    · rcases hf : m.falsy with _ | _
      · rcases hv : validate_message_content (some m) with _ | _
        · simp [send_message, hcheck, hf, hv] at h
        · rcases hpost : sessionPost server with ⟨res, n⟩
          rcases res with s | _
          · by_cases h4 : 400 ≤ s
            · simp [send_message, hcheck, hf, hv, hpost, h4] at h
            · simp [send_message, hcheck, hf, hv, hpost, h4]
              exact hframe
          · simp [send_message, hcheck, hf, hv, hpost] at h
      · simp [send_message, hcheck, hf] at h

/-- A breaker part-way through a failure history: 3 recorded failures,
below the threshold of 5. -/
def historyBreaker : Breaker :=
  { failure_count := 3, threshold := 5, cooldown := 300, last_failure_time := some 0 }

/-- C1: the spec claims that any payload with a text-bearing leaf (at any
nesting depth) longer than 500 characters or containing `http://`,
`https://` or `www.` is rejected by `validate_message_content`.  The code
refutes the claim: `badPayload` carries the URL `http://evil.example` in a
text leaf nested inside a `rich_text_list` / `rich_text_section` group —
exactly where `prepare_message` puts spreadsheet-supplied names — yet
`validate_message_content` returns true, because it only reads the `text`
field of the elements directly inside each block. -/
theorem C1_validate_accepts_nested_url :
    badPayload.deepTexts = ["http://evil.example"] ∧
    contains_url "http://evil.example" = true ∧
    validate_message_content (some badPayload) = true :=
  ⟨rfl, rfl, rfl⟩

/-- C2: the spec claims a missing template file degrades gracefully and the
run never crashes.  The code refutes the claim: with a roster matching one
birthday today and `bin/title.json` missing (`load_json_file` returns
`None`), `prepare_message` evaluates `message['blocks'].append(...)` with
`message = None` and raises `TypeError`, modelled here as `Except.error
PyErr.typeError`. -/
theorem C2_prepare_message_crashes_on_missing_title :
    get_birthdays [rowAmina] (6, 15) = ["Amina"] ∧
    prepare_message [rowAmina] (6, 15) none (some birthdayHeaderTemplate)
      (some anniversaryHeaderTemplate) "gif1" "gif2" "June 15, 2026" =
      .error PyErr.typeError :=
  ⟨rfl, rfl⟩

/-- C3: for every breaker with `failure_count ≥ threshold`, if at least
`cooldown` seconds have elapsed since `last_failure_time`, the next
`is_open()` call returns false and resets `failure_count` to 0 on that
call. -/
theorem C3_is_open_resets_after_cooldown (b : Breaker) (t now : ℚ)
    (h1 : b.threshold ≤ b.failure_count) (h2 : b.last_failure_time = some t)
    (h3 : b.cooldown ≤ now - t) :
    is_open b now = (false, { b with failure_count := 0 }) :=
  is_open_heal now h1 (Or.inr ⟨t, h2, h3⟩)

/-- Witness for C3 at the tripped breaker, 400 seconds after its last
failure at time 0 (cooldown 300). -/
theorem C3_witness :
    trippedBreaker.threshold ≤ trippedBreaker.failure_count ∧
    trippedBreaker.last_failure_time = some 0 ∧
    trippedBreaker.cooldown ≤ (400 : ℚ) - 0 ∧
    is_open trippedBreaker 400 = (false, { trippedBreaker with failure_count := 0 }) :=
  ⟨by decide, rfl, by norm_num [trippedBreaker],
   C3_is_open_resets_after_cooldown trippedBreaker 0 400 (by decide) rfl
     (by norm_num [trippedBreaker])⟩

/-- C4: when no birthday or anniversary matches today, `prepare_message`
returns the absent payload, and `send_message` on an absent payload (with
the breaker closed) returns `Skipped(nothing_to_report)` and issues zero
HTTP requests. -/
theorem C4_no_match_returns_absent_and_skips (roster : List Row) (today : Nat × Nat)
    (title bHeader aHeader : Option Json) (bGif aGif dateStr : String)
    (hb : get_birthdays roster today = []) (ha : get_anniversaries roster today = []) :
    prepare_message roster today title bHeader aHeader bGif aGif dateStr = .ok none ∧
    ∀ (b : Breaker) (now : ℚ) (server : Nat → Nat), (is_open b now).1 = false →
      send_message b now none server = (.skipped .nothingToReport, (is_open b now).2, 0) := by
  constructor
  · unfold prepare_message
    rw [hb, ha]
    rfl
  · intro b now server hopen
    rcases hcheck : is_open b now with ⟨bo, b1⟩
    rw [hcheck] at hopen
    simp at hopen
    subst hopen
    simp [send_message, hcheck]

/-- Witness for C4: a roster whose only birthday is June 15, run on
January 2, with the fresh breaker. -/
theorem C4_witness :
    prepare_message [rowAmina] (1, 2) none none none "" "" "" = .ok none ∧
    send_message circuit_breaker 0 none (fun _ => 200) =
      (.skipped .nothingToReport, circuit_breaker, 0) :=
  ⟨(C4_no_match_returns_absent_and_skips [rowAmina] (1, 2) none none none "" "" ""
      rfl rfl).1,
   (C4_no_match_returns_absent_and_skips [rowAmina] (1, 2) none none none "" "" ""
      rfl rfl).2 circuit_breaker 0 (fun _ => 200) rfl⟩

/-- C5 counterexample: when the webhook answers 503 on every attempt until
the retries are exhausted, the outcome of `send_message` is
`Failed(network_error)` — the exhausted retries surface as a `RetryError`,
which is a `RequestException`, caught by the network-error branch — and NOT
`Failed(http_error)` as the claim states. -/
theorem C5_counterexample_all_503_not_httpError :
    (send_message circuit_breaker 0 (some goodPayload) (fun _ => 503)).1 =
      Outcome.failed FailReason.networkError ∧
    (send_message circuit_breaker 0 (some goodPayload) (fun _ => 503)).1 ≠
      Outcome.failed FailReason.httpError :=
  ⟨rfl, by decide⟩

/-- C5 amended: for every closed breaker and valid payload, if the webhook
answers a forcelist status on every attempt, the single logical send yields
`Failed(network_error)` and increments `failure_count` by exactly 1 (not
once per HTTP sub-attempt), stamping the failure time. -/
theorem C5_amended_all_503_networkError_one_increment (b : Breaker) (now : ℚ) (m : Json)
    (server : Nat → Nat) (hfc : b.failure_count < b.threshold) (hm : m.falsy = false)
    (hv : validate_message_content (some m) = true)
    (hs : ∀ i, server i ∈ statusForcelist) :
    send_message b now (some m) server =
      (.failed .networkError,
       { b with failure_count := b.failure_count + 1, last_failure_time := some now },
       maxAttempts) := by
  have hopen := is_open_of_lt now hfc
  simp [send_message, hopen, hm, hv, sessionPost_all_forcelist hs, record_failure,
    maxAttempts, totalRetries]

/-- Witness for C5 amended: fresh breaker, minimal valid payload, webhook
answering 503 forever. -/
theorem C5_amended_witness :
    send_message circuit_breaker 0 (some goodPayload) (fun _ => 503) =
      (.failed .networkError,
       { circuit_breaker with failure_count := 1, last_failure_time := some 0 },
       maxAttempts) :=
  C5_amended_all_503_networkError_one_increment circuit_breaker 0 goodPayload
    (fun _ => 503) (by decide) rfl rfl
    (by
      intro i
      show (503 : Nat) ∈ statusForcelist
      decide)

/-- C6 counterexample: with `Retry(total=3)` a logical send that keeps
hitting a forcelist status issues 4 HTTP attempts, not at most 3 as the
claim states: in urllib3, `total` counts retries after the initial
request. -/
theorem C6_counterexample_four_attempts :
    (sessionPost (fun _ => 503)).2 = 4 ∧ ¬ (sessionPost (fun _ => 503)).2 ≤ 3 :=
  ⟨rfl, by decide⟩

/-- C6 amended: the HTTP client makes at most 4 total attempts per logical
send (1 initial request plus `total=3` retries), is configured with
exponential backoff factor 2, retries only on status codes 500, 502, 503,
504, and a first response outside the forcelist ends the send after exactly
one attempt. -/
theorem C6_amended_retry_config (server : Nat → Nat) :
    (sessionPost server).2 ≤ maxAttempts ∧ maxAttempts = 4 ∧
    totalRetries = 3 ∧ backoff_factor = 2 ∧
    statusForcelist = [500, 502, 503, 504] ∧
    (server 0 ∉ statusForcelist → sessionPost server = (.ok (server 0), 1)) := by
  refine ⟨?_, rfl, rfl, rfl, rfl, fun h => sessionPost_first_ok h⟩
  have h := retryLoop_count_le server totalRetries 0
  simpa [sessionPost, maxAttempts] using h

/-- Witness for C6 amended: a webhook answering 200 is contacted exactly
once. -/
theorem C6_amended_witness :
    sessionPost (fun _ => 200) = (.ok 200, 1) :=
  (C6_amended_retry_config (fun _ => 200)).2.2.2.2.2 (by decide)

/-- C7: starting Closed with `failure_count = 0`, after `threshold`
consecutive `record_failure()` calls (no intervening success, cooldown not
yet elapsed since the last of them), `is_open()` returns true. -/
theorem C7_threshold_failures_trip_open (b : Breaker) (times : List ℚ) (tk now : ℚ)
    (h0 : b.failure_count = 0) (hlen : times.length + 1 = b.threshold)
    (hcd : now - tk < b.cooldown) :
    (is_open (applyFailures b (times ++ [tk])) now).1 = true := by
  have hfc : (applyFailures b (times ++ [tk])).failure_count = b.threshold := by
    rw [applyFailures_fc, h0, List.length_append]
    simp
    omega
  have hth : (applyFailures b (times ++ [tk])).threshold = b.threshold :=
    applyFailures_th _ _
  have hcd' : (applyFailures b (times ++ [tk])).cooldown = b.cooldown :=
    applyFailures_cd _ _
  have hle : (applyFailures b (times ++ [tk])).threshold ≤
      (applyFailures b (times ++ [tk])).failure_count := by
    rw [hth, hfc]
  have heq := is_open_of_open now hle (applyFailures_last times b tk)
    (by rw [hcd']; exact hcd)
  rw [heq]

/-- Witness for C7: five failures at times 0..4 on the fresh breaker
(threshold 5), checked at time 10, well inside the 300 s cooldown. -/
theorem C7_witness :
    (is_open (applyFailures circuit_breaker [0, 1, 2, 3, 4]) 10).1 = true :=
  C7_threshold_failures_trip_open circuit_breaker [0, 1, 2, 3] 4 10 rfl rfl
    (by norm_num [circuit_breaker])

/-- C8: whenever the breaker is open (`failure_count ≥ threshold` and
within the cooldown window), `send_message` returns `Skipped(circuit_open)`
immediately, leaves the breaker unchanged, and issues zero HTTP requests,
for every payload. -/
theorem C8_open_breaker_skips_without_http (b : Breaker) (t now : ℚ)
    (message : Option Json) (server : Nat → Nat)
    (h1 : b.threshold ≤ b.failure_count) (h2 : b.last_failure_time = some t)
    (h3 : now - t < b.cooldown) :
    send_message b now message server = (.skipped .circuitOpen, b, 0) := by
  have hopen := is_open_of_open now h1 h2 h3
  simp [send_message, hopen]

/-- Witness for C8: the tripped breaker 10 seconds after its last failure
short-circuits a valid payload. -/
theorem C8_witness :
    send_message trippedBreaker 10 (some goodPayload) (fun _ => 200) =
      (.skipped .circuitOpen, trippedBreaker, 0) :=
  C8_open_breaker_skips_without_http trippedBreaker 0 10 (some goodPayload)
    (fun _ => 200) (by decide) rfl (by norm_num [trippedBreaker])

/-- C9: whatever the prior failure count, a send that reaches the wire and
gets a 2xx response returns `Sent` and sets the breaker's `failure_count`
to 0. -/
theorem C9_success_resets_failure_count (b : Breaker) (now : ℚ) (m : Json)
    (server : Nat → Nat) (hopen : (is_open b now).1 = false) (hm : m.falsy = false)
    (hv : validate_message_content (some m) = true)
    (h2a : 200 ≤ server 0) (h2b : server 0 < 300) :
    send_message b now (some m) server =
      (.sent, { (is_open b now).2 with failure_count := 0 }, 1) := by
  have hnot : server 0 ∉ statusForcelist := by
    intro hmem
    have := forcelist_ge_500 hmem
    omega
  have hpost := sessionPost_first_ok hnot
  have h4 : ¬ 400 ≤ server 0 := by omega
  rcases hcheck : is_open b now with ⟨bo, b1⟩
  rw [hcheck] at hopen
  simp at hopen
  subst hopen
  simp [send_message, hcheck, hm, hv, hpost, h4]

/-- Witness for C9: a breaker with 3 recorded failures is healed to 0 by a
204 response. -/
theorem C9_witness :
    send_message historyBreaker 10 (some goodPayload) (fun _ => 204) =
      (.sent, { historyBreaker with failure_count := 0 }, 1) :=
  C9_success_resets_failure_count historyBreaker 10 goodPayload (fun _ => 204)
    rfl rfl rfl (by decide) (by decide)

/-- C10: `is_open()` mutates the breaker only in the heal case — it leaves
the state unchanged when the count is below threshold and when the breaker
is open within the cooldown window; it never changes `threshold`,
`cooldown` or `last_failure_time`; its only mutation is resetting
`failure_count` to 0 when the count is at threshold and the last failure is
unset or at least `cooldown` seconds old; and a send that returns `Sent`
never clears `last_failure_time`. -/
theorem C10_is_open_frame_and_success_preserves_last (b : Breaker) (now : ℚ) :
    (b.failure_count < b.threshold → is_open b now = (false, b)) ∧
    (∀ t, b.threshold ≤ b.failure_count → b.last_failure_time = some t →
      now - t < b.cooldown → is_open b now = (true, b)) ∧
    ((is_open b now).2.threshold = b.threshold ∧
     (is_open b now).2.cooldown = b.cooldown ∧
     (is_open b now).2.last_failure_time = b.last_failure_time) ∧
    (b.threshold ≤ b.failure_count →
      (b.last_failure_time = none ∨
        ∃ t, b.last_failure_time = some t ∧ b.cooldown ≤ now - t) →
      is_open b now = (false, { b with failure_count := 0 })) ∧
    (∀ (message : Option Json) (server : Nat → Nat),
      (send_message b now message server).1 = Outcome.sent →
      ((send_message b now message server).2.1).last_failure_time =
        b.last_failure_time) :=
  ⟨fun h => is_open_of_lt now h,
   fun _ h1 h2 h3 => is_open_of_open now h1 h2 h3,
   is_open_frame b now,
   fun h1 h2 => is_open_heal now h1 h2,
   fun message server h => send_message_sent_last b now message server h⟩

/-- Witness for C10, discharging each hypothesis at concrete breakers: the
fresh breaker stays untouched, the tripped breaker within cooldown stays
untouched and open, the tripped breaker past cooldown heals to count 0, and
a successful send preserves `last_failure_time`. -/
theorem C10_witness :
    is_open circuit_breaker 0 = (false, circuit_breaker) ∧
    is_open trippedBreaker 10 = (true, trippedBreaker) ∧
    is_open trippedBreaker 400 = (false, { trippedBreaker with failure_count := 0 }) ∧
    ((send_message circuit_breaker 0 (some goodPayload) (fun _ => 200)).2.1).last_failure_time =
      circuit_breaker.last_failure_time :=
  ⟨(C10_is_open_frame_and_success_preserves_last circuit_breaker 0).1 (by decide),
   (C10_is_open_frame_and_success_preserves_last trippedBreaker 10).2.1 0 (by decide)
     rfl (by norm_num [trippedBreaker]),
   (C10_is_open_frame_and_success_preserves_last trippedBreaker 400).2.2.2.1 (by decide)
     (Or.inr ⟨0, rfl, by norm_num [trippedBreaker]⟩),
   (C10_is_open_frame_and_success_preserves_last circuit_breaker 0).2.2.2.2
     (some goodPayload) (fun _ => 200) rfl⟩
